import Mathlib

set_option maxRecDepth 8192

/-!
Verification development for the secure-heap password-management proof of
concept.  The Node.js sources are shallowly embedded: byte buffers become
lists of naturals together with an overwrite counter, the mutable manager
object becomes explicit state passing, and fallible operations return
`Except`.  Nondeterministic inputs of the runtime (protected-memory
measurements, random fill bytes, encryption and decryption outcomes) are
parameters of the embedded operations.
-/

namespace SecureHeap

/-- Error value thrown by the JavaScript code, identified by its message
(mirrors `new Error(message)`). -/
structure JsError where
  message : String
deriving Repr, DecidableEq

instance {ε α : Type} [DecidableEq ε] [DecidableEq α] : DecidableEq (Except ε α)
  | Except.ok x, Except.ok y =>
    if h : x = y then isTrue (congrArg Except.ok h)
    else isFalse (fun hc => h (Except.ok.inj hc))
  | Except.ok _, Except.error _ => isFalse (fun hc => Except.noConfusion hc)
  | Except.error _, Except.ok _ => isFalse (fun hc => Except.noConfusion hc)
  | Except.error x, Except.error y =>
    if h : x = y then isTrue (congrArg Except.error h)
    else isFalse (fun hc => h (Except.error.inj hc))

/-- Node.js `Buffer` as seen by this code base: its byte contents, a counter
of how many times it has been overwritten in place by `crypto.randomFillSync`,
and the own-property method overrides that `withDecryptedPassword` installs
(`toString`, `toJSON`, and the custom inspect symbol).  A `none` override
means the `Buffer.prototype` default is in effect. -/
structure Buf where
  bytes : List Nat
  fills : Nat
  toStringOv : Option (Except JsError String)
  toJSONOv : Option (Except JsError (List Nat))
  inspectOv : Option String
deriving Repr, DecidableEq

/-- A freshly created buffer with the given contents (e.g. `Buffer.from`). -/
def mkBuf (bs : List Nat) : Buf :=
  { bytes := bs, fills := 0, toStringOv := none, toJSONOv := none, inspectOv := none }

/-- Bytes produced by one `crypto.randomFillSync` call of the given length;
the random source is the byte stream `r`. -/
def fillBytes (r : Nat → Nat) (len : Nat) : List Nat :=
  (List.range len).map (fun i => r i % 256)

/-- Model of `crypto.randomFillSync(buf)`: the contents are replaced in place
by bytes drawn from the random stream `r` and the overwrite counter grows. -/
def randomFillSync (b : Buf) (r : Nat → Nat) : Buf :=
  { b with bytes := fillBytes r b.bytes.length, fills := b.fills + 1 }

/-- Default rendering of buffer bytes as text (`Buffer.prototype.toString`). -/
def defaultRender (bs : List Nat) : String :=
  String.mk (bs.map (fun n => Char.ofNat n))

/-- Calling `buf.toString()`: the installed override wins, otherwise the
prototype default renders the bytes as text. -/
def bufToString (b : Buf) : Except JsError String :=
  b.toStringOv.getD (Except.ok (defaultRender b.bytes))

/-- Calling `buf.toJSON()`: the installed override wins, otherwise the
prototype default exposes the raw byte array. -/
def bufToJSON (b : Buf) : Except JsError (List Nat) :=
  b.toJSONOv.getD (Except.ok b.bytes)

/-- Diagnostic rendering of a buffer (`util.inspect`, used by `console.log`):
the installed custom-inspect override wins, otherwise the default rendering
displays the bytes. -/
def bufInspect (b : Buf) : String :=
  b.inspectOv.getD ("<Buffer " ++ defaultRender b.bytes ++ ">")

/-- Rendering of a byte array as a JSON text. -/
def renderJson (bs : List Nat) : String :=
  "[" ++ String.intercalate "," (bs.map toString) ++ "]"

/-- `JSON.stringify(buf)` consults `buf.toJSON()` first, so an override that
throws makes the whole stringification throw. -/
def jsonStringify (b : Buf) : Except JsError String :=
  match bufToJSON b with
  | Except.error e => Except.error e
  | Except.ok data => Except.ok (renderJson data)

/-- The error thrown by the `toString` override installed during guarded
access (part_002 line 155). -/
def securityToStringError : JsError :=
  { message := "SECURITY ERROR: Converting password buffer to string is forbidden. This prevents accidental creation of immutable string copies." }

/-- The error thrown by the `toJSON` override installed during guarded access
(part_002 line 161). -/
def securityToJSONError : JsError :=
  { message := "SECURITY ERROR: Converting password buffer to JSON is forbidden." }

/-- The fixed placeholder returned by the inspect override installed during
guarded access (part_002 line 167). -/
def redactedPlaceholder : String :=
  "[SecureBuffer: *** REDACTED ***]"

/-- An error whose message is branded as a security error. -/
def isSecurityError (e : JsError) : Bool :=
  List.isPrefixOf "SECURITY ERROR".toList e.message.toList

/-- The method overriding performed by `withDecryptedPassword` before the
callback runs (part_002 lines 152 to 168): `toString` and `toJSON` throw,
and the custom inspect hook returns a fixed redacted placeholder. -/
def guardBuffer (b : Buf) : Buf :=
  { b with
    toStringOv := some (Except.error securityToStringError)
    toJSONOv := some (Except.error securityToJSONError)
    inspectOv := some redactedPlaceholder }

/-- Restoring the original methods in the `finally` block (part_002 lines
178 to 180): the override slots return to the values the fetched buffer had
before guarding. -/
def restoreBuffer (guarded original : Buf) : Buf :=
  { guarded with
    toStringOv := original.toStringOv
    toJSONOv := original.toJSONOv
    inspectOv := original.inspectOv }

/-- The three ways a consumer callback can settle: return normally, raise
synchronously, or return a deferred result that later rejects.  Since the
caller `await`s the callback, the last two both surface as a rejection of
the awaited expression. -/
inductive CallbackBehavior (α : Type) where
  | returnsNormally : α → CallbackBehavior α
  | throwsSync : JsError → CallbackBehavior α
  | rejectsLater : JsError → CallbackBehavior α
deriving Repr, DecidableEq

/-- Outcome of `await callback(...)`. -/
def settleCallback {α : Type} : CallbackBehavior α → Except JsError α
  | CallbackBehavior.returnsNormally v => Except.ok v
  | CallbackBehavior.throwsSync e => Except.error e
  | CallbackBehavior.rejectsLater e => Except.error e

/-- Model of `withDecryptedPassword` (part_002 lines 144 to 191) from the
point where the getDecryptedPassword request has resolved with the
buffer `fetched`.  The callback receives the guarded buffer; the `try` block
awaits it; the `finally` block runs on every settlement path and, because
the value is a `Buffer`, restores the original methods and then overwrites
the buffer once with `crypto.randomFillSync`.  The returned pair is the
settled result (the callback result re-returned, or its error re-raised)
together with the final state of the fetched buffer. -/
def withDecryptedPassword {α : Type} (fetched : Buf)
    (cb : Buf → CallbackBehavior α) (r : Nat → Nat) :
    Except JsError α × Buf :=
  let guarded := guardBuffer fetched
  let outcome := settleCallback (cb guarded)
  (outcome, randomFillSync (restoreBuffer guarded fetched) r)

/-- Opaque handle to a generated RSA key object. -/
structure KeyRef where
  keyId : Nat
deriving Repr, DecidableEq

/-- Result object of `crypto.secureHeapUsed()` (the floating-point
`utilization` ratio field is omitted; the code under scrutiny only reads
`used`). -/
structure HeapUsage where
  total : Int
  min : Int
  used : Int
deriving Repr, DecidableEq

/-- Mutable state of a `SecureHeapSecretManager` instance
(secure-heap-secret-manager.js lines 6 to 19).  The baseline field is
`none` while `this.secureHeapAllocationBaseline` is still undefined. -/
structure ManagerState where
  rsaPrivateKey : Option KeyRef
  rsaPublicKey : Option KeyRef
  encryptedPassword : Option Buf
  isShutdown : Bool
  activeBuffers : List Buf
  secureHeapAllocationBaseline : Option Int
deriving Repr, DecidableEq

/-- State established by the constructor. -/
def initManagerState : ManagerState :=
  { rsaPrivateKey := none, rsaPublicKey := none, encryptedPassword := none,
    isShutdown := false, activeBuffers := [], secureHeapAllocationBaseline := none }

/-- Error thrown by `#checkShutdown` (lines 118 to 122). -/
def shutdownError : JsError :=
  { message := "SECURITY ERROR: SecureHeapSecretManager has been shut down" }

/-- Error thrown when a secure-heap measurement is not a valid number. -/
def invalidMeasurementError (n : Int) : JsError :=
  { message := "Invalid secure heap allocation measurement: " ++ toString n }

/-- The key-generation failure path calls `process.exit(1)`; it is modelled
as an aborting outcome carrying the logged message. -/
def keygenFailureExit : JsError :=
  { message := "CRITICAL: RSA key generation failed" }

/-- Error thrown when secure-heap usage did not increase across key
generation (lines 167 to 169). -/
def allocationError (before after : Int) : JsError :=
  { message := "RSA keypair may not be stored in secure heap. Before: " ++
      toString before ++ ", After: " ++ toString after }

/-- Error thrown when the baseline is missing or nonpositive (lines 189 to
191); a missing baseline prints as `undefined`. -/
def invalidBaselineError (b : Option Int) : JsError :=
  { message := "Invalid secure heap baseline: " ++
      (match b with
       | none => "undefined"
       | some n => toString n) }

/-- Error thrown when current usage has dropped below the baseline (lines
195 to 197). -/
def allocationMismatchError (expected actual : Int) : JsError :=
  { message := "Secure heap utilization expectation not met. Expected " ++
      toString expected ++ " - Actual " ++ toString actual }

/-- Error thrown by `#setEncryptedPassword` on non-Buffer input (lines 259
to 261). -/
def validationError : JsError :=
  { message := "SECURITY ERROR: setEncryptedPassword requires a Buffer, not a string or other type" }

/-- JavaScript value handed to `#setEncryptedPassword`; `Buffer.isBuffer`
distinguishes the first constructor from all others. -/
inductive JsValue where
  | vbuf : Buf → JsValue
  | vstr : String → JsValue
  | vnum : Int → JsValue
  | vnull : JsValue
deriving Repr, DecidableEq

/-- `Buffer.isBuffer`. -/
def isBuffer : JsValue → Bool
  | JsValue.vbuf _ => true
  | _ => false

/-- Model of `#setEncryptedPassword` (secure-heap-secret-manager.js lines
255 to 276).  `encOutcome` is the result of `crypto.publicEncrypt` on the
input bytes (it may raise), `r` the random stream used by the `finally`
fill.  The result carries the manager state (or the raised error) together
with the final state of the caller-held input value: for every Buffer input
the `finally` block overwrites the buffer whether encryption succeeded or
raised, while non-Buffer input fails before any mutation. -/
def setEncryptedPassword (st : ManagerState) (input : JsValue)
    (encOutcome : Except JsError (List Nat)) (r : Nat → Nat) :
    (ManagerState × Except JsError Unit) × JsValue :=
  if st.isShutdown then ((st, Except.error shutdownError), input)
  else
    match input with
    | JsValue.vbuf b =>
      (match encOutcome with
       | Except.ok ct =>
         (({ st with encryptedPassword := some (mkBuf ct) }, Except.ok ()),
          JsValue.vbuf (randomFillSync b r))
       | Except.error e =>
         ((st, Except.error e), JsValue.vbuf (randomFillSync b r)))
    | v => ((st, Except.error validationError), v)

/-- Model of `generateSecureKeypair` (lines 133 to 172).  `allocBefore` and
`allocAfter` are the two `crypto.secureHeapUsed().used` measurements taken
before and after key creation (each preceded by a settling delay);
`keypair` is the result of `crypto.generateKeyPairSync` (`none` when it
failed, which the code answers with `process.exit(1)`).  Note the key
references are assigned to `this` before the second measurement, so they
remain assigned even when the allocation check then fails. -/
def generateSecureKeypair (st : ManagerState) (allocBefore allocAfter : Int)
    (keypair : Option (KeyRef × KeyRef)) : ManagerState × Except JsError Unit :=
  if st.isShutdown then (st, Except.error shutdownError)
  else if allocBefore < 0 then (st, Except.error (invalidMeasurementError allocBefore))
  else
    match keypair with
    | none => (st, Except.error keygenFailureExit)
    | some kp =>
      if allocAfter < 0 then
        ({ st with rsaPrivateKey := some kp.1, rsaPublicKey := some kp.2 },
         Except.error (invalidMeasurementError allocAfter))
      else if allocAfter ≤ allocBefore then
        ({ st with rsaPrivateKey := some kp.1, rsaPublicKey := some kp.2 },
         Except.error (allocationError allocBefore allocAfter))
      else
        ({ st with rsaPrivateKey := some kp.1, rsaPublicKey := some kp.2,
                   secureHeapAllocationBaseline := some (allocAfter - allocBefore) },
         Except.ok ())

/-- Model of `verifyExpectedAllocation` (lines 178 to 200).
`currentAllocation` is the current `crypto.secureHeapUsed().used`. -/
def verifyExpectedAllocation (st : ManagerState) (currentAllocation : Int) :
    ManagerState × Except JsError Bool :=
  if st.isShutdown then (st, Except.error shutdownError)
  else if currentAllocation < 0 then
    (st, Except.error (invalidMeasurementError currentAllocation))
  else
    match st.secureHeapAllocationBaseline with
    | none => (st, Except.error (invalidBaselineError none))
    | some b =>
      if b ≤ 0 then (st, Except.error (invalidBaselineError (some b)))
      else if currentAllocation < b then
        (st, Except.error (allocationMismatchError b currentAllocation))
      else (st, Except.ok true)

/-- Model of `getSecureHeapUsage` (lines 124 to 127). -/
def getSecureHeapUsage (st : ManagerState) (usage : HeapUsage) :
    ManagerState × Except JsError HeapUsage :=
  if st.isShutdown then (st, Except.error shutdownError)
  else (st, Except.ok usage)

/-- Model of `getDecryptedPassword` (lines 286 to 305).  `decOutcome` is the
result of `crypto.privateDecrypt`; on success the produced plaintext buffer
is registered in `activeBuffers` before being returned. -/
def getDecryptedPassword (st : ManagerState) (decOutcome : Except JsError Buf) :
    ManagerState × Except JsError Buf :=
  if st.isShutdown then (st, Except.error shutdownError)
  else
    match decOutcome with
    | Except.error e => (st, Except.error e)
    | Except.ok b => ({ st with activeBuffers := st.activeBuffers ++ [b] }, Except.ok b)

/-- Failure injection for `shutdown`: whether the `randomFillSync` of the
encrypted password throws, and, if set, the index of the tracked buffer
whose `randomFillSync` throws inside the cleanup loop. -/
structure ShutdownFailure where
  encFillFails : Bool
  bufFillFailsAt : Option Nat
deriving Repr, DecidableEq

/-- Buffers strictly before index `i` are overwritten; the loop then threw,
leaving the rest untouched. -/
def fillUpTo (bufs : List Buf) (i : Nat) (r : Nat → Nat) : List Buf :=
  ((bufs.take i).map (fun b => randomFillSync b r)) ++ bufs.drop i

/-- Result of `shutdown`: the new manager state, the after-shutdown contents
of the buffers that were in the registry (their caller-held references
survive the registry being cleared), and the after-shutdown contents of the
formerly stored ciphertext buffer. -/
structure ShutdownOut where
  state : ManagerState
  registryRefs : List Buf
  encRef : Option Buf
deriving Repr, DecidableEq

/-- Tail of `shutdown` after the buffer-cleanup loop and the rest of the try
block ran without an exception: registry cleared, key references dropped,
manager marked shut down. -/
def shutdownFinish (st : ManagerState) (enc : Option Buf) (r : Nat → Nat) : ShutdownOut :=
  { state := { st with activeBuffers := [], rsaPrivateKey := none,
                       rsaPublicKey := none, isShutdown := true },
    registryRefs := st.activeBuffers.map (fun b => randomFillSync b r),
    encRef := enc }

/-- The buffer-cleanup loop of `shutdown` (lines 77 to 83), with the
injected possibility that the fill of the buffer at some index throws; the
single surrounding `catch` then only marks the manager shut down, leaving
the registry uncleared and the key references in place. -/
def shutdownBuffers (st : ManagerState) (enc : Option Buf) (f : ShutdownFailure)
    (r : Nat → Nat) : ShutdownOut :=
  match f.bufFillFailsAt with
  | some i =>
    if i < st.activeBuffers.length then
      { state := { st with activeBuffers := fillUpTo st.activeBuffers i r,
                           isShutdown := true },
        registryRefs := fillUpTo st.activeBuffers i r,
        encRef := enc }
    else shutdownFinish st enc r
  | none => shutdownFinish st enc r

/-- Model of `shutdown` (secure-heap-secret-manager.js lines 61 to 104).
Returns immediately when already shut down.  The whole cleanup sequence
lives in one `try` whose `catch` only logs and sets `isShutdown`, so an
exception in an early step skips every later step: if filling the encrypted
password throws, it is not nulled, the registry is not touched and the keys
are not dropped; if filling some registry buffer throws, the registry is
not cleared and the keys are not dropped.  On every path the manager ends
marked shut down and no error propagates to the caller. -/
def shutdown (st : ManagerState) (f : ShutdownFailure) (r : Nat → Nat) : ShutdownOut :=
  if st.isShutdown then
    { state := st, registryRefs := st.activeBuffers, encRef := st.encryptedPassword }
  else
    match st.encryptedPassword with
    | some encBuf =>
      if f.encFillFails then
        { state := { st with isShutdown := true },
          registryRefs := st.activeBuffers,
          encRef := some encBuf }
      else
        shutdownBuffers { st with encryptedPassword := none }
          (some (randomFillSync encBuf r)) f r
    | none => shutdownBuffers st none f r

/-- Byte contents of `Buffer.from` applied to an ASCII string literal. -/
def strBytes (s : String) : List Nat :=
  s.toList.map Char.toNat

/-- Message received by the worker over IPC. -/
structure WorkerMsg where
  type : String
  id : Nat
deriving Repr, DecidableEq

/-- Payload attached to the worker response. -/
inductive OutData where
  | odNone
  | odHeapUsage : HeapUsage → OutData
  | odBuffer : Buf → OutData
deriving Repr, DecidableEq

/-- Response message built by the worker. -/
structure OutboundMsg where
  type : String
  id : Nat
  data : OutData
  error : Option JsError
deriving Repr, DecidableEq

/-- Observable side effects of one worker message dispatch: how many
`crypto.randomFillSync` calls ran in the worker process, which
SecretManager operations were executed, and whether the unknown-type branch
logged. -/
structure WorkerEffects where
  fills : Nat
  managerOps : List String
  unknownLogged : Bool
deriving Repr, DecidableEq

/-- Model of the worker message handler in src/secure-worker.js lines 3 to
23.  The switch recognises only `checkSecureHeapUsage` and
`decryptPassword`; every other type falls through to the default branch,
which logs the unknown type and still sends a `<type>:result` message with
no data.  `heap` stands for `crypto.secureHeapUsed()`.  The handler calls
`process.send(outboundMsg)` without a completion callback and contains no
`randomFillSync`, so `fills` is zero on every path, and it references no
SecretManager, so `managerOps` is empty on every path. -/
def workerOnMessage (msg : WorkerMsg) (heap : HeapUsage) : OutboundMsg × WorkerEffects :=
  if msg.type = "checkSecureHeapUsage" then
    ({ type := msg.type ++ ":result", id := msg.id, data := OutData.odHeapUsage heap,
       error := none },
     { fills := 0, managerOps := [], unknownLogged := false })
  else if msg.type = "decryptPassword" then
    ({ type := msg.type ++ ":result", id := msg.id,
       data := OutData.odBuffer (mkBuf (strBytes "password:decrypted")), error := none },
     { fills := 0, managerOps := [], unknownLogged := false })
  else
    ({ type := msg.type ++ ":result", id := msg.id, data := OutData.odNone, error := none },
     { fills := 0, managerOps := [], unknownLogged := true })

/-- Request types the process manager accepts (part_002 line 5). -/
def validRequests : List String :=
  ["generateSecureKeypair", "checkSecureHeapEnabled", "readInPassword",
   "getDecryptedPassword", "verifyExpectedAllocation"]

/-- Result message types accepted from the child (part_002 line 6). -/
def validChildMessageTypes : List String :=
  validRequests.map (fun request => request ++ ":result")

/-- Data field of a message arriving from the child over IPC: IPC
serialization turns a Buffer into a tagged object holding a plain byte
array, which the handler reconstructs with `Buffer.from`. -/
inductive MsgData where
  | undef
  | serialBuf : List Nat → MsgData
  | nativeBuf : Buf → MsgData
  | otherData : Nat → MsgData
deriving Repr, DecidableEq

/-- Buffer deserialization performed by the message handler (part_002 lines
28 to 31). -/
def reconstructData : MsgData → MsgData
  | MsgData.serialBuf bs => MsgData.nativeBuf (mkBuf bs)
  | d => d

/-- Message arriving from the child process. -/
structure ChildMsg where
  type : String
  id : Nat
  data : MsgData
  error : Option JsError
deriving Repr, DecidableEq

/-- How a pending request promise is settled by the handler. -/
inductive Settlement where
  | resolved : MsgData → Settlement
  | rejected : JsError → Settlement
deriving Repr, DecidableEq

/-- Rebuilding the error rethrown on the manager side (part_002 line 35). -/
def childErrToError (e : Option JsError) : JsError :=
  { message := (e.map (fun x => x.message)).getD "Unknown error from child" }

/-- `String.prototype.endsWith`, computed on the character lists. -/
def strEndsWith (s suff : String) : Bool :=
  List.isSuffixOf suff.toList s.toList

/-- `this.pending.get(msg.id)`: the pending table maps request ids to the
identity (tag) of the promise waiting on them. -/
def lookupPending (pending : List (Nat × Nat)) (id : Nat) : Option Nat :=
  (pending.find? (fun p => p.1 = id)).map (fun p => p.2)

/-- `this.pending.delete(msg.id)`. -/
def removePending (pending : List (Nat × Nat)) (id : Nat) : List (Nat × Nat) :=
  pending.filter (fun p => p.1 ≠ id)

/-- Model of the child message handler (part_002 lines 17 to 41).
An id with no pending entry is logged and discarded.  A recognised
`:result` type resolves the matching pending promise with the
reconstructed data and removes it from the table; a `:error` type rejects
it; any other type is logged and the entry is left in place. -/
def onChildMessage (pending : List (Nat × Nat)) (msg : ChildMsg) :
    List (Nat × Nat) × List (Nat × Settlement) :=
  match lookupPending pending msg.id with
  | none => (pending, [])
  | some tag =>
    if strEndsWith msg.type ":result" && validChildMessageTypes.contains msg.type then
      (removePending pending msg.id, [(tag, Settlement.resolved (reconstructData msg.data))])
    else if strEndsWith msg.type ":error" then
      (removePending pending msg.id, [(tag, Settlement.rejected (childErrToError msg.error))])
    else
      (pending, [])

/-- Delivery of a sequence of child messages in arrival order, collecting
every settlement the handler performs. -/
def deliverAll (pending : List (Nat × Nat)) (msgs : List ChildMsg) :
    List (Nat × Nat) × List (Nat × Settlement) :=
  match msgs with
  | [] => (pending, [])
  | m :: rest =>
    ((deliverAll (onChildMessage pending m).1 rest).1,
     (onChildMessage pending m).2 ++ (deliverAll (onChildMessage pending m).1 rest).2)

/-- Keyword patterns the console sanitiser looks for, case-insensitively
(part_002 lines 61 to 67). -/
def suspiciousKeywords : List String :=
  ["password", "passwd", "secret", "key", "token"]

/-- Whether `pat` occurs as a contiguous run inside the second list. -/
def containsSub (pat : List Char) : List Char → Bool
  | [] => pat.isEmpty
  | c :: rest => pat.isPrefixOf (c :: rest) || containsSub pat rest

/-- Case-insensitive substring test standing for the `/pattern/i` regex
tests (the patterns are plain lowercase words). -/
def containsCI (s pat : String) : Bool :=
  containsSub pat.toList s.toLower.toList

/-- The `^[A-Za-z0-9+/=]+$` regex test (part_002 line 79). -/
def isBase64Charset (s : String) : Bool :=
  s.length > 0 && s.toList.all (fun c => c.isAlphanum || c = '+' || c = '/' || c = '=')

/-- The placeholder substituted for a Buffer argument, a function of the
buffer length alone (part_002 line 86). -/
def bufPlaceholder (len : Nat) : String :=
  "[Buffer: " ++ toString len ++ " bytes - CONTENT REDACTED]"

/-- Argument passed to a console method. -/
inductive ConsoleArg where
  | argStr : String → ConsoleArg
  | argBuf : Buf → ConsoleArg
  | argOther : Nat → ConsoleArg
deriving Repr, DecidableEq

/-- Model of the per-argument sanitiser installed by
`#initializeConsoleSanitization` (part_002 lines 69 to 91). -/
def sanitizeArg : ConsoleArg → ConsoleArg
  | ConsoleArg.argStr s =>
    if suspiciousKeywords.any (fun pat => containsCI s pat) && s.length > 8 then
      ConsoleArg.argStr "[REDACTED: Potentially sensitive data]"
    else if s.length > 32 && isBase64Charset s then
      ConsoleArg.argStr ("[REDACTED: " ++ toString s.length ++ " character string]")
    else ConsoleArg.argStr s
  | ConsoleArg.argBuf b => ConsoleArg.argStr (bufPlaceholder b.bytes.length)
  | ConsoleArg.argOther t => ConsoleArg.argOther t

/-- After construction, `console.log`, `console.error`, `console.warn` and
`console.info` all forward `sanitizeOutput(args)` to the original console
method (part_002 lines 93 to 96). -/
def sanitizeOutput (args : List ConsoleArg) : List ConsoleArg :=
  args.map sanitizeArg

/-- Two console arguments are observation-equivalent inputs when they are
equal, or are both Buffers of equal length (their contents may differ). -/
def lengthEquiv (a b : ConsoleArg) : Prop :=
  a = b ∨ ∃ b1 b2, a = ConsoleArg.argBuf b1 ∧ b = ConsoleArg.argBuf b2 ∧
    b1.bytes.length = b2.bytes.length

/-! Theorems. -/

/-- C1: for every consumer callback passed to `withDecryptedPassword`,
whether it returns normally, raises synchronously, or returns a deferred
result that later rejects, the decrypted buffer handed to it is overwritten
exactly once after the callback settles, and the operation returns the
callback result or re-raises the callback error. -/
theorem withDecryptedPassword_sanitizes_once {α : Type} (fetched : Buf)
    (cb : Buf → CallbackBehavior α) (r : Nat → Nat) :
    (withDecryptedPassword fetched cb r).2.fills = fetched.fills + 1
    ∧ (∀ v, cb (guardBuffer fetched) = CallbackBehavior.returnsNormally v →
        (withDecryptedPassword fetched cb r).1 = Except.ok v)
    ∧ (∀ e, cb (guardBuffer fetched) = CallbackBehavior.throwsSync e →
        (withDecryptedPassword fetched cb r).1 = Except.error e)
    ∧ (∀ e, cb (guardBuffer fetched) = CallbackBehavior.rejectsLater e →
        (withDecryptedPassword fetched cb r).1 = Except.error e) := by
  refine ⟨rfl, ?_, ?_, ?_⟩ <;> intro x h <;>
    simp [withDecryptedPassword, settleCallback, h]

/-- Witness for C1 at a concrete buffer, callback and random stream. -/
theorem withDecryptedPassword_sanitizes_once_witness :
    (withDecryptedPassword (mkBuf [1, 2, 3])
      (fun _ => CallbackBehavior.returnsNormally (42 : Nat)) (fun _ => 0)).2.fills = 1
    ∧ (withDecryptedPassword (mkBuf [1, 2, 3])
        (fun _ => CallbackBehavior.returnsNormally (42 : Nat)) (fun _ => 0)).1
        = Except.ok 42 := by
  constructor
  · exact (withDecryptedPassword_sanitizes_once (mkBuf [1, 2, 3])
      (fun _ => CallbackBehavior.returnsNormally (42 : Nat)) (fun _ => 0)).1
  · exact (withDecryptedPassword_sanitizes_once (mkBuf [1, 2, 3])
      (fun _ => CallbackBehavior.returnsNormally (42 : Nat)) (fun _ => 0)).2.1 42 rfl

/-- C4: on every buffer wrapped for guarded access, whatever its contents,
calling `toString` or `toJSON` (and hence `JSON.stringify`) fails with a
security error, and diagnostic rendering yields the fixed redacted
placeholder instead of the bytes. -/
theorem guardBuffer_blocks_exposure (b : Buf) :
    bufToString (guardBuffer b) = Except.error securityToStringError
    ∧ bufToJSON (guardBuffer b) = Except.error securityToJSONError
    ∧ jsonStringify (guardBuffer b) = Except.error securityToJSONError
    ∧ bufInspect (guardBuffer b) = redactedPlaceholder
    ∧ isSecurityError securityToStringError = true
    ∧ isSecurityError securityToJSONError = true := by
  exact ⟨rfl, rfl, rfl, rfl, by decide, by decide⟩

/-- C5: the encrypt operation rejects every non-Buffer value with the
validation error before any mutation, and for every Buffer input the
`finally` fill overwrites the buffer whether encryption succeeded or
raised; whenever the freshly drawn fill bytes differ from a non-empty
original, the contents no longer equal the original plaintext. -/
theorem setEncryptedPassword_validates_and_sanitizes
    (st : ManagerState) (input : JsValue) (enc : Except JsError (List Nat))
    (r : Nat → Nat) (hlive : st.isShutdown = false) :
    (isBuffer input = false →
      (setEncryptedPassword st input enc r).1.2 = Except.error validationError
      ∧ (setEncryptedPassword st input enc r).2 = input)
    ∧ (∀ b, input = JsValue.vbuf b →
        (setEncryptedPassword st input enc r).2 = JsValue.vbuf (randomFillSync b r)
        ∧ (randomFillSync b r).fills = b.fills + 1
        ∧ (b.bytes ≠ [] → fillBytes r b.bytes.length ≠ b.bytes →
            (randomFillSync b r).bytes ≠ b.bytes)) := by
  refine ⟨?_, ?_⟩
  · intro hnb
    cases input with
    | vbuf b => simp [isBuffer] at hnb
    | vstr s => simp [setEncryptedPassword, hlive]
    | vnum n => simp [setEncryptedPassword, hlive]
    | vnull => simp [setEncryptedPassword, hlive]
  · intro b hb
    subst hb
    refine ⟨?_, rfl, ?_⟩
    · cases enc <;> simp [setEncryptedPassword, hlive]
    · intro _ hdiff
      simpa [randomFillSync] using hdiff

/-- Witness for C5 at a concrete live manager, string input, Buffer input,
encryption outcome and random stream. -/
theorem setEncryptedPassword_validates_and_sanitizes_witness :
    (setEncryptedPassword initManagerState (JsValue.vstr "pw") (Except.ok [7]) (fun _ => 0)).1.2
      = Except.error validationError
    ∧ (setEncryptedPassword initManagerState (JsValue.vbuf (mkBuf [1, 2])) (Except.ok [7]) (fun _ => 0)).2
      = JsValue.vbuf (randomFillSync (mkBuf [1, 2]) (fun _ => 0))
    ∧ (randomFillSync (mkBuf [1, 2]) (fun _ => 0)).bytes ≠ [1, 2] := by
  refine ⟨?_, ?_, ?_⟩
  · exact ((setEncryptedPassword_validates_and_sanitizes initManagerState
      (JsValue.vstr "pw") (Except.ok [7]) (fun _ => 0) rfl).1 rfl).1
  · exact ((setEncryptedPassword_validates_and_sanitizes initManagerState
      (JsValue.vbuf (mkBuf [1, 2])) (Except.ok [7]) (fun _ => 0) rfl).2 (mkBuf [1, 2]) rfl).1
  · exact ((setEncryptedPassword_validates_and_sanitizes initManagerState
      (JsValue.vbuf (mkBuf [1, 2])) (Except.ok [7]) (fun _ => 0) rfl).2 (mkBuf [1, 2]) rfl).2.2
      (by decide) (by decide)

/-- C6: key-pair generation measures protected-memory usage before and
after key creation, fails with the allocation error when usage did not
increase, and on success stores the delta of the two measurements as the
allocation baseline. -/
theorem generateSecureKeypair_measures_allocation
    (st : ManagerState) (allocBefore allocAfter : Int) (priv pub : KeyRef)
    (hlive : st.isShutdown = false) (hb : 0 ≤ allocBefore) (ha : 0 ≤ allocAfter) :
    (allocAfter ≤ allocBefore →
      (generateSecureKeypair st allocBefore allocAfter (some (priv, pub))).2
        = Except.error (allocationError allocBefore allocAfter))
    ∧ (allocBefore < allocAfter →
      generateSecureKeypair st allocBefore allocAfter (some (priv, pub))
        = ({ st with
               rsaPrivateKey := some priv
               rsaPublicKey := some pub
               secureHeapAllocationBaseline := some (allocAfter - allocBefore) },
           Except.ok ())) := by
  have hb' : ¬ allocBefore < 0 := not_lt.mpr hb
  have ha' : ¬ allocAfter < 0 := not_lt.mpr ha
  constructor
  · intro hle
    simp [generateSecureKeypair, hlive, hb', ha', hle]
  · intro hlt
    have hgt : ¬ allocAfter ≤ allocBefore := not_le.mpr hlt
    simp [generateSecureKeypair, hlive, hb', ha', hgt]

/-- Witness for C6 at concrete measurements 0 and 1408. -/
theorem generateSecureKeypair_measures_allocation_witness :
    generateSecureKeypair initManagerState 0 1408 (some (⟨1⟩, ⟨2⟩))
      = ({ initManagerState with
             rsaPrivateKey := some ⟨1⟩
             rsaPublicKey := some ⟨2⟩
             secureHeapAllocationBaseline := some 1408 },
         Except.ok ())
    ∧ (generateSecureKeypair initManagerState 5 5 (some (⟨1⟩, ⟨2⟩))).2
      = Except.error (allocationError 5 5) := by
  constructor
  · exact (generateSecureKeypair_measures_allocation initManagerState 0 1408 ⟨1⟩ ⟨2⟩
      rfl (by decide) (by decide)).2 (by decide)
  · exact (generateSecureKeypair_measures_allocation initManagerState 5 5 ⟨1⟩ ⟨2⟩
      rfl (by decide) (by decide)).1 (by decide)

/-- C7: allocation verification fails when no baseline exists (in
particular on the freshly constructed manager), fails when current usage
has dropped below the stored baseline, succeeds when current usage is at or
above it, and in particular succeeds immediately after a successful
key-pair generation. -/
theorem verifyExpectedAllocation_checks_baseline
    (st : ManagerState) (current : Int)
    (hlive : st.isShutdown = false) (hc : 0 ≤ current) :
    (st.secureHeapAllocationBaseline = none →
      (verifyExpectedAllocation st current).2 = Except.error (invalidBaselineError none))
    ∧ (∀ b, st.secureHeapAllocationBaseline = some b → 0 < b →
        (current < b →
          (verifyExpectedAllocation st current).2
            = Except.error (allocationMismatchError b current))
        ∧ (b ≤ current → (verifyExpectedAllocation st current).2 = Except.ok true))
    ∧ (verifyExpectedAllocation initManagerState current).2
        = Except.error (invalidBaselineError none)
    ∧ (∀ (st0 : ManagerState) (allocBefore allocAfter : Int) (priv pub : KeyRef),
        st0.isShutdown = false → 0 ≤ allocBefore → allocBefore < allocAfter →
        (verifyExpectedAllocation
          (generateSecureKeypair st0 allocBefore allocAfter (some (priv, pub))).1
          allocAfter).2 = Except.ok true) := by
  have hc' : ¬ current < 0 := not_lt.mpr hc
  refine ⟨?_, ?_, ?_, ?_⟩
  · intro hbase
    simp [verifyExpectedAllocation, hlive, hc', hbase]
  · intro b hbase hpos
    have hbne : ¬ b ≤ 0 := not_le.mpr hpos
    constructor
    · intro hlt
      simp [verifyExpectedAllocation, hlive, hc', hbase, hbne, hlt]
    · intro hge
      have hnl : ¬ current < b := not_lt.mpr hge
      simp [verifyExpectedAllocation, hlive, hc', hbase, hbne, hnl]
  · simp [verifyExpectedAllocation, initManagerState, hc']
  · intro st0 b0 a0 priv pub h1 h2 h3
    have hb0 : ¬ b0 < 0 := by omega
    have ha0 : ¬ a0 < 0 := by omega
    have hne : ¬ a0 ≤ b0 := by omega
    have h4 : ¬ a0 - b0 ≤ 0 := by omega
    have h5 : ¬ a0 < a0 - b0 := by omega
    simp [generateSecureKeypair, verifyExpectedAllocation, h1, hb0, ha0, hne, h4, h5]

/-- Witness for C7: verification fails on the fresh manager and succeeds
right after a concrete successful key-pair generation. -/
theorem verifyExpectedAllocation_checks_baseline_witness :
    (verifyExpectedAllocation initManagerState 5).2
      = Except.error (invalidBaselineError none)
    ∧ (verifyExpectedAllocation
        (generateSecureKeypair initManagerState 0 1408 (some (⟨1⟩, ⟨2⟩))).1 1408).2
      = Except.ok true := by
  constructor
  · exact (verifyExpectedAllocation_checks_baseline initManagerState 5 rfl (by decide)).2.2.1
  · exact (verifyExpectedAllocation_checks_baseline initManagerState 5 rfl (by decide)).2.2.2
      initManagerState 0 1408 ⟨1⟩ ⟨2⟩ rfl (by decide) (by decide)

/-- Helper: the buffer-cleanup tail of `shutdown` always ends marked shut
down. -/
theorem shutdownBuffers_marks (st : ManagerState) (enc : Option Buf)
    (f : ShutdownFailure) (r : Nat → Nat) :
    (shutdownBuffers st enc f r).state.isShutdown = true := by
  unfold shutdownBuffers shutdownFinish
  cases f.bufFillFailsAt with
  | none => rfl
  | some i => by_cases h : i < st.activeBuffers.length <;> simp [h]

/-- Helper: every path of `shutdown` leaves the manager marked shut down. -/
theorem shutdown_marks (st : ManagerState) (f : ShutdownFailure) (r : Nat → Nat) :
    (shutdown st f r).state.isShutdown = true := by
  cases hs : st.isShutdown with
  | true => simp [shutdown, hs]
  | false =>
    cases hep : st.encryptedPassword with
    | none => simp [shutdown, hs, hep, shutdownBuffers_marks]
    | some eb =>
      cases hf : f.encFillFails with
      | true => simp [shutdown, hs, hep, hf]
      | false => simp [shutdown, hs, hep, hf, shutdownBuffers_marks]

/-- C9 (amended): `shutdown` is idempotent, always ends with the manager
terminally marked shut down, and never propagates a cleanup error.  When no
cleanup step raises, it overwrites and clears the stored encrypted secret,
overwrites every registry buffer and clears the registry, and drops the key
references.  An error raised while filling the encrypted secret is caught,
but the remaining cleanup steps are skipped: only the shut-down mark is
still applied.  Every subsequent operation fails with the lifecycle
error. -/
theorem shutdown_cleanup (st : ManagerState) (f : ShutdownFailure) (r : Nat → Nat) :
    (st.isShutdown = true → shutdown st f r =
      { state := st, registryRefs := st.activeBuffers, encRef := st.encryptedPassword })
    ∧ (shutdown st f r).state.isShutdown = true
    ∧ (st.isShutdown = false → f.encFillFails = false → f.bufFillFailsAt = none →
        (shutdown st f r).state =
          { st with
            encryptedPassword := none
            activeBuffers := []
            rsaPrivateKey := none
            rsaPublicKey := none
            isShutdown := true }
        ∧ (shutdown st f r).registryRefs = st.activeBuffers.map (fun b => randomFillSync b r)
        ∧ (shutdown st f r).encRef = st.encryptedPassword.map (fun b => randomFillSync b r))
    ∧ (∀ eb, st.isShutdown = false → st.encryptedPassword = some eb →
        f.encFillFails = true →
        shutdown st f r =
          { state := { st with isShutdown := true }
            registryRefs := st.activeBuffers
            encRef := some eb })
    ∧ (∀ (usage : HeapUsage) (current b0 a0 : Int) (input : JsValue)
        (enc : Except JsError (List Nat)) (dec : Except JsError Buf)
        (kp : Option (KeyRef × KeyRef)) (r2 : Nat → Nat),
        (getSecureHeapUsage (shutdown st f r).state usage).2 = Except.error shutdownError
        ∧ (generateSecureKeypair (shutdown st f r).state b0 a0 kp).2
            = Except.error shutdownError
        ∧ (verifyExpectedAllocation (shutdown st f r).state current).2
            = Except.error shutdownError
        ∧ (setEncryptedPassword (shutdown st f r).state input enc r2).1.2
            = Except.error shutdownError
        ∧ (getDecryptedPassword (shutdown st f r).state dec).2
            = Except.error shutdownError) := by
  have hmark := shutdown_marks st f r
  refine ⟨?_, hmark, ?_, ?_, ?_⟩
  · intro h
    simp [shutdown, h]
  · intro h1 h2 h3
    cases hep : st.encryptedPassword with
    | none =>
      refine ⟨?_, ?_, ?_⟩ <;>
        simp [shutdown, shutdownBuffers, shutdownFinish, h1, h2, h3, hep]
    | some eb =>
      refine ⟨?_, ?_, ?_⟩ <;>
        simp [shutdown, shutdownBuffers, shutdownFinish, h1, h2, h3, hep]
  · intro eb h1 hep hf
    simp [shutdown, h1, hep, hf]
  · intro usage current b0 a0 input enc dec kp r2
    refine ⟨?_, ?_, ?_, ?_, ?_⟩ <;>
      simp [getSecureHeapUsage, generateSecureKeypair, verifyExpectedAllocation,
        setEncryptedPassword, getDecryptedPassword, hmark]

/-- Witness for C9 on a concrete live manager: the failure-free run clears
everything, and afterwards verification fails with the lifecycle error. -/
theorem shutdown_cleanup_witness :
    (shutdown
        { rsaPrivateKey := some ⟨1⟩, rsaPublicKey := some ⟨2⟩,
          encryptedPassword := some (mkBuf [9]), isShutdown := false,
          activeBuffers := [mkBuf [5]], secureHeapAllocationBaseline := some 100 }
        { encFillFails := false, bufFillFailsAt := none } (fun _ => 0)).state
      = { rsaPrivateKey := none, rsaPublicKey := none, encryptedPassword := none,
          isShutdown := true, activeBuffers := [], secureHeapAllocationBaseline := some 100 }
    ∧ (verifyExpectedAllocation
        (shutdown
          { rsaPrivateKey := some ⟨1⟩, rsaPublicKey := some ⟨2⟩,
            encryptedPassword := some (mkBuf [9]), isShutdown := false,
            activeBuffers := [mkBuf [5]], secureHeapAllocationBaseline := some 100 }
          { encFillFails := false, bufFillFailsAt := none } (fun _ => 0)).state 100).2
      = Except.error shutdownError := by
  constructor
  · exact ((shutdown_cleanup
      { rsaPrivateKey := some ⟨1⟩, rsaPublicKey := some ⟨2⟩,
        encryptedPassword := some (mkBuf [9]), isShutdown := false,
        activeBuffers := [mkBuf [5]], secureHeapAllocationBaseline := some 100 }
      { encFillFails := false, bufFillFailsAt := none } (fun _ => 0)).2.2.1 rfl rfl rfl).1
  · exact ((shutdown_cleanup
      { rsaPrivateKey := some ⟨1⟩, rsaPublicKey := some ⟨2⟩,
        encryptedPassword := some (mkBuf [9]), isShutdown := false,
        activeBuffers := [mkBuf [5]], secureHeapAllocationBaseline := some 100 }
      { encFillFails := false, bufFillFailsAt := none } (fun _ => 0)).2.2.2.2
      { total := 32768, min := 0, used := 100 } 100 0 0 JsValue.vnull
      (Except.ok []) (Except.error shutdownError) none (fun _ => 0)).2.2.1

/-- C9 counterexample: on a concrete manager holding one encrypted secret,
one registry buffer and both key references, injecting an error into the
very first cleanup step (the fill of the encrypted secret) leaves the
registry uncleared, its buffer never overwritten, the encrypted secret
still in place and the key references undropped — the error halted the
remaining cleanup steps, contrary to the claim. -/
theorem shutdown_error_halts_cleanup :
    (shutdown
        { rsaPrivateKey := some ⟨1⟩, rsaPublicKey := some ⟨2⟩,
          encryptedPassword := some (mkBuf [9]), isShutdown := false,
          activeBuffers := [mkBuf [5]], secureHeapAllocationBaseline := some 100 }
        { encFillFails := true, bufFillFailsAt := none } (fun _ => 0)).state.activeBuffers
      = [mkBuf [5]]
    ∧ (shutdown
        { rsaPrivateKey := some ⟨1⟩, rsaPublicKey := some ⟨2⟩,
          encryptedPassword := some (mkBuf [9]), isShutdown := false,
          activeBuffers := [mkBuf [5]], secureHeapAllocationBaseline := some 100 }
        { encFillFails := true, bufFillFailsAt := none } (fun _ => 0)).state.rsaPrivateKey
      = some ⟨1⟩
    ∧ (shutdown
        { rsaPrivateKey := some ⟨1⟩, rsaPublicKey := some ⟨2⟩,
          encryptedPassword := some (mkBuf [9]), isShutdown := false,
          activeBuffers := [mkBuf [5]], secureHeapAllocationBaseline := some 100 }
        { encFillFails := true, bufFillFailsAt := none } (fun _ => 0)).state.encryptedPassword
      = some (mkBuf [9])
    ∧ (mkBuf [5]).fills = 0 := by
  exact ⟨rfl, rfl, rfl, rfl⟩

/-- C2 evaluation at the failing input: the worker handler responds to
`decryptPassword` with the plaintext secret attached, yet performs no
`randomFillSync` at all — `process.send(outboundMsg)` is called with no
completion callback, so the local plaintext copy is never overwritten,
confirmed or not; and for `getDecryptedPassword`, the request type the
manager actually sends to obtain a decrypted secret, the handler answers
with no data and again zero fills. -/
theorem worker_sends_secret_without_sanitization :
    (workerOnMessage { type := "decryptPassword", id := 1 }
        { total := 32768, min := 0, used := 0 }).1
      = { type := "decryptPassword:result", id := 1,
          data := OutData.odBuffer (mkBuf (strBytes "password:decrypted")), error := none }
    ∧ (workerOnMessage { type := "decryptPassword", id := 1 }
        { total := 32768, min := 0, used := 0 }).2.fills = 0
    ∧ (workerOnMessage { type := "getDecryptedPassword", id := 2 }
        { total := 32768, min := 0, used := 0 }).1.data = OutData.odNone
    ∧ (workerOnMessage { type := "getDecryptedPassword", id := 2 }
        { total := 32768, min := 0, used := 0 }).2.fills = 0 := by
  exact ⟨rfl, rfl, rfl, rfl⟩

/-- C3 evaluation: for every request type the process manager can send, the
worker dispatch has no matching case; it logs the unknown type, executes no
SecretManager operation at all, and still sends back a bare `<type>:result`
message carrying the same id and no data. -/
theorem worker_ignores_supported_requests (t : String) (i : Nat) (heap : HeapUsage)
    (ht : t ∈ validRequests) :
    (workerOnMessage { type := t, id := i } heap).1.type = t ++ ":result"
    ∧ (workerOnMessage { type := t, id := i } heap).1.id = i
    ∧ (workerOnMessage { type := t, id := i } heap).1.data = OutData.odNone
    ∧ (workerOnMessage { type := t, id := i } heap).2.managerOps = []
    ∧ (workerOnMessage { type := t, id := i } heap).2.unknownLogged = true := by
  have h5 : t = "generateSecureKeypair" ∨ t = "checkSecureHeapEnabled" ∨
      t = "readInPassword" ∨ t = "getDecryptedPassword" ∨
      t = "verifyExpectedAllocation" := by
    simpa [validRequests] using ht
  rcases h5 with rfl | rfl | rfl | rfl | rfl <;> exact ⟨rfl, rfl, rfl, rfl, rfl⟩

/-- Witness for C3 at the concrete request type `generateSecureKeypair`. -/
theorem worker_ignores_supported_requests_witness :
    (workerOnMessage { type := "generateSecureKeypair", id := 7 }
        { total := 32768, min := 0, used := 1408 }).1.data = OutData.odNone
    ∧ (workerOnMessage { type := "generateSecureKeypair", id := 7 }
        { total := 32768, min := 0, used := 1408 }).2.managerOps = [] := by
  constructor
  · exact (worker_ignores_supported_requests "generateSecureKeypair" 7
      { total := 32768, min := 0, used := 1408 } (by simp [validRequests])).2.2.1
  · exact (worker_ignores_supported_requests "generateSecureKeypair" 7
      { total := 32768, min := 0, used := 1408 } (by simp [validRequests])).2.2.2.1

/-- Helper: a recognised result response settles exactly the matching
pending entry with its own payload. -/
theorem onChildMessage_result (pending : List (Nat × Nat)) (q : String) (i : Nat)
    (d : MsgData) (err : Option JsError) (tag : Nat)
    (hq : q ∈ validRequests) (hlook : lookupPending pending i = some tag) :
    onChildMessage pending { type := q ++ ":result", id := i, data := d, error := err }
      = (removePending pending i, [(tag, Settlement.resolved (reconstructData d))]) := by
  have h5 : q = "generateSecureKeypair" ∨ q = "checkSecureHeapEnabled" ∨
      q = "readInPassword" ∨ q = "getDecryptedPassword" ∨
      q = "verifyExpectedAllocation" := by
    simpa [validRequests] using hq
  rcases h5 with rfl | rfl | rfl | rfl | rfl <;>
    (simp only [onChildMessage, hlook]; rw [if_pos (by decide)])

/-- Helper: an error response rejects exactly the matching pending entry
with the rebuilt error. -/
theorem onChildMessage_error (pending : List (Nat × Nat)) (q : String) (i : Nat)
    (d : MsgData) (err : Option JsError) (tag : Nat)
    (hq : q ∈ validRequests) (hlook : lookupPending pending i = some tag) :
    onChildMessage pending { type := q ++ ":error", id := i, data := d, error := err }
      = (removePending pending i, [(tag, Settlement.rejected (childErrToError err))]) := by
  have h5 : q = "generateSecureKeypair" ∨ q = "checkSecureHeapEnabled" ∨
      q = "readInPassword" ∨ q = "getDecryptedPassword" ∨
      q = "verifyExpectedAllocation" := by
    simpa [validRequests] using hq
  rcases h5 with rfl | rfl | rfl | rfl | rfl <;>
    (simp only [onChildMessage, hlook]; rw [if_neg (by decide), if_pos (by decide)])

/-- Helper: a successful lookup names an entry of the table. -/
theorem lookupPending_mem (pending : List (Nat × Nat)) (i tag : Nat)
    (hlook : lookupPending pending i = some tag) : (i, tag) ∈ pending := by
  unfold lookupPending at hlook
  cases hfind : pending.find? (fun p => p.1 = i) with
  | none => simp [hfind] at hlook
  | some p =>
    have hmem := List.mem_of_find?_eq_some hfind
    have hpred := List.find?_some hfind
    have h1 : p.1 = i := by simpa using hpred
    have h2 : p.2 = tag := by simp [hfind] at hlook; exact hlook
    have : p = (i, tag) := by
      cases p
      simp_all
    rwa [this] at hmem

/-- C8: the child-message handler settles exactly the pending request whose
id matches the message id, removing it from the table while every entry
with a different id stays; messages whose id has no pending entry are
discarded with the table unchanged; and for two concurrent requests with
distinct ids, whichever order their responses arrive in, each request is
resolved with the payload of the response bearing its own id. -/
theorem onChildMessage_pairs_by_id (pending : List (Nat × Nat)) :
    (∀ msg : ChildMsg, lookupPending pending msg.id = none →
      onChildMessage pending msg = (pending, []))
    ∧ (∀ (q : String) (i : Nat) (d : MsgData) (err : Option JsError) (tag : Nat),
        q ∈ validRequests → lookupPending pending i = some tag →
        onChildMessage pending { type := q ++ ":result", id := i, data := d, error := err }
          = (removePending pending i, [(tag, Settlement.resolved (reconstructData d))])
        ∧ (i, tag) ∈ pending)
    ∧ (∀ (q : String) (i : Nat) (d : MsgData) (err : Option JsError) (tag : Nat),
        q ∈ validRequests → lookupPending pending i = some tag →
        onChildMessage pending { type := q ++ ":error", id := i, data := d, error := err }
          = (removePending pending i, [(tag, Settlement.rejected (childErrToError err))]))
    ∧ (∀ p ∈ pending, ∀ i : Nat, p ∈ removePending pending i ↔ p.1 ≠ i)
    ∧ (∀ (i1 i2 t1 t2 : Nat) (q1 q2 : String) (d1 d2 : MsgData) (ord : Bool),
        i1 ≠ i2 → q1 ∈ validRequests → q2 ∈ validRequests →
        (t1, Settlement.resolved (reconstructData d1)) ∈
          (deliverAll [(i1, t1), (i2, t2)]
            (if ord then
              [{ type := q1 ++ ":result", id := i1, data := d1, error := none },
               { type := q2 ++ ":result", id := i2, data := d2, error := none }]
             else
              [{ type := q2 ++ ":result", id := i2, data := d2, error := none },
               { type := q1 ++ ":result", id := i1, data := d1, error := none }])).2
        ∧ (t2, Settlement.resolved (reconstructData d2)) ∈
          (deliverAll [(i1, t1), (i2, t2)]
            (if ord then
              [{ type := q1 ++ ":result", id := i1, data := d1, error := none },
               { type := q2 ++ ":result", id := i2, data := d2, error := none }]
             else
              [{ type := q2 ++ ":result", id := i2, data := d2, error := none },
               { type := q1 ++ ":result", id := i1, data := d1, error := none }])).2) := by
  refine ⟨?_, ?_, ?_, ?_, ?_⟩
  · intro msg hnone
    simp [onChildMessage, hnone]
  · intro q i d err tag hq hlook
    exact ⟨onChildMessage_result pending q i d err tag hq hlook,
           lookupPending_mem pending i tag hlook⟩
  · intro q i d err tag hq hlook
    exact onChildMessage_error pending q i d err tag hq hlook
  · intro p hp i
    simp [removePending, List.mem_filter, hp]
  · intro i1 i2 t1 t2 q1 q2 d1 d2 ord h12 hq1 hq2
    have l11 : lookupPending [(i1, t1), (i2, t2)] i1 = some t1 := by
      simp [lookupPending, List.find?]
    have l22 : lookupPending [(i1, t1), (i2, t2)] i2 = some t2 := by
      simp [lookupPending, List.find?, h12]
    have l21 : lookupPending [(i2, t2)] i1 = some t1 ∨ True := Or.inr trivial
    have r1 : removePending [(i1, t1), (i2, t2)] i1 = [(i2, t2)] := by
      simp [removePending, List.filter, Ne.symm h12]
    have r2 : removePending [(i1, t1), (i2, t2)] i2 = [(i1, t1)] := by
      simp [removePending, List.filter, h12]
    have l1' : lookupPending [(i2, t2)] i1 = none := by
      simp [lookupPending, List.find?, Ne.symm h12]
    have l2' : lookupPending [(i1, t1)] i2 = none := by
      simp [lookupPending, List.find?, h12]
    have l1'' : lookupPending [(i1, t1)] i1 = some t1 := by
      simp [lookupPending, List.find?]
    have l2'' : lookupPending [(i2, t2)] i2 = some t2 := by
      simp [lookupPending, List.find?]
    cases ord with
    | true =>
      have s1 := onChildMessage_result [(i1, t1), (i2, t2)] q1 i1 d1 none t1 hq1 l11
      have s2 := onChildMessage_result [(i2, t2)] q2 i2 d2 none t2 hq2 l2''
      have r2' : removePending [(i2, t2)] i2 = [] := by
        simp [removePending, List.filter]
      simp [deliverAll, s1, r1, s2, r2']
    | false =>
      have s1 := onChildMessage_result [(i1, t1), (i2, t2)] q2 i2 d2 none t2 hq2 l22
      have s2 := onChildMessage_result [(i1, t1)] q1 i1 d1 none t1 hq1 l1''
      have r1' : removePending [(i1, t1)] i1 = [] := by
        simp [removePending, List.filter]
      simp [deliverAll, s1, r2, s2, r1']

/-- Witness for C8 on a concrete pending table, a matching serialized-buffer
response, an unknown-id response, and a two-request interleaving. -/
theorem onChildMessage_pairs_by_id_witness :
    onChildMessage [(1, 10)]
      { type := "getDecryptedPassword" ++ ":result", id := 1,
        data := MsgData.serialBuf [3, 4], error := none }
      = ([], [(10, Settlement.resolved (MsgData.nativeBuf (mkBuf [3, 4])))])
    ∧ onChildMessage [(1, 10)]
        { type := "verifyExpectedAllocation" ++ ":result", id := 5,
          data := MsgData.undef, error := none }
      = ([(1, 10)], [])
    ∧ (20, Settlement.resolved (MsgData.nativeBuf (mkBuf [8]))) ∈
        (deliverAll [(1, 10), (2, 20)]
          [{ type := "getDecryptedPassword" ++ ":result", id := 2,
             data := MsgData.serialBuf [8], error := none },
           { type := "readInPassword" ++ ":result", id := 1,
             data := MsgData.undef, error := none }]).2 := by
  refine ⟨?_, ?_, ?_⟩
  · exact ((onChildMessage_pairs_by_id [(1, 10)]).2.1 "getDecryptedPassword" 1
      (MsgData.serialBuf [3, 4]) none 10 (by simp [validRequests]) rfl).1
  · exact (onChildMessage_pairs_by_id [(1, 10)]).1
      { type := "verifyExpectedAllocation" ++ ":result", id := 5,
        data := MsgData.undef, error := none } rfl
  · exact ((onChildMessage_pairs_by_id [(1, 10), (2, 20)]).2.2.2.2 1 2 10 20
      "readInPassword" "getDecryptedPassword" MsgData.undef (MsgData.serialBuf [8])
      false (by decide) (by simp [validRequests]) (by simp [validRequests])).2

/-- C10: every Buffer argument handed to a sanitised console method is
replaced by the placeholder determined by the buffer length alone; in
particular the sanitised output of two argument lists that differ only in
the contents of equal-length buffers is identical, so buffer contents never
flow to the console. -/
theorem consoleSanitization_redacts_buffers :
    (∀ b : Buf, sanitizeArg (ConsoleArg.argBuf b)
      = ConsoleArg.argStr (bufPlaceholder b.bytes.length))
    ∧ (∀ b1 b2 : Buf, b1.bytes.length = b2.bytes.length →
        sanitizeArg (ConsoleArg.argBuf b1) = sanitizeArg (ConsoleArg.argBuf b2))
    ∧ (∀ args1 args2 : List ConsoleArg, List.Forall₂ lengthEquiv args1 args2 →
        sanitizeOutput args1 = sanitizeOutput args2) := by
  refine ⟨fun b => rfl, ?_, ?_⟩
  · intro b1 b2 h
    simp [sanitizeArg, bufPlaceholder, h]
  · intro args1 args2 h
    induction h with
    | nil => rfl
    | @cons a b l1 l2 hab htail ih =>
      have hhead : sanitizeArg a = sanitizeArg b := by
        rcases hab with rfl | ⟨b1, b2, rfl, rfl, hlen⟩
        · rfl
        · simp [sanitizeArg, bufPlaceholder, hlen]
      simp only [sanitizeOutput, List.map_cons] at ih ⊢
      rw [hhead, ih]

/-- Witness for C10: two equal-length buffers with different contents
sanitise identically, and a mixed argument list keeps only redacted
buffers. -/
theorem consoleSanitization_redacts_buffers_witness :
    sanitizeArg (ConsoleArg.argBuf (mkBuf [1, 2, 3]))
      = sanitizeArg (ConsoleArg.argBuf (mkBuf [9, 8, 7]))
    ∧ sanitizeOutput [ConsoleArg.argOther 0, ConsoleArg.argBuf (mkBuf [1, 2, 3])]
      = sanitizeOutput [ConsoleArg.argOther 0, ConsoleArg.argBuf (mkBuf [9, 8, 7])] := by
  constructor
  · exact consoleSanitization_redacts_buffers.2.1 (mkBuf [1, 2, 3]) (mkBuf [9, 8, 7]) rfl
  · exact consoleSanitization_redacts_buffers.2.2
      [ConsoleArg.argOther 0, ConsoleArg.argBuf (mkBuf [1, 2, 3])]
      [ConsoleArg.argOther 0, ConsoleArg.argBuf (mkBuf [9, 8, 7])]
      (List.Forall₂.cons (Or.inl rfl)
        (List.Forall₂.cons (Or.inr ⟨mkBuf [1, 2, 3], mkBuf [9, 8, 7], rfl, rfl, rfl⟩)
          List.Forall₂.nil))

end SecureHeap
